import Mathlib

/-!
Verification of the datastar extensions catalog of `gostar`
(`cfg/extensions_datastar.go` together with its test suite
`tests/datastar_test.go`).

The Go file is configuration data: a catalog (`DatastarExtensions`) of
attribute definitions, a registry (`datastarModifiers`) of reusable modifier
descriptors, a reflection based completeness check
(`attributeCustomModifiers.validate`) that panics when a registry field was
left nil, and a helper `doc` that checks a documentation URL over the network
and appends a "See:" footer to a description.

Embedding conventions:
* protobuf message pointers (`*pb.Attribute_Custom_Modifier` and friends)
  become `Option` of a structure; the Go zero values (empty string, `false`,
  `nil`) are the structures' default field values;
* the Go field `Type` is rendered `Typ` (`Type` is a Lean keyword); all other
  field names are kept;
* `panic` is modelled as an explicit error value: `validate` returns
  `Except String`, and `doc` returns a `DocResult` that distinguishes the
  function's two explicit `panic` calls from Go runtime faults (a slice out of
  range, a nil pointer dereference) that abort it before an explicit `panic`
  is reached;
* the code generator and the generated `elements` builder package are not part
  of the two source files; where a claim needs them they are modelled from the
  spec's generated-string contract (each such definition is marked
  `Modelled from the spec:`) and cross-checked against the exact strings the
  test suite expects.
-/

set_option maxRecDepth 16384

namespace Gostar

/-- The base value kinds `AttributeTypeString`, `AttributeTypeBool`,
`AttributeTypeDurationMs`, `AttributeTypeDurationSec` produce (the pb value
types used by the catalog). -/
inductive BaseAttributeType where
  | string
  | bool
  | durationMs
  | durationSec
deriving DecidableEq

/-- Mirror of the Go constructor `AttributeTypeString()`. -/
def AttributeTypeString : BaseAttributeType := BaseAttributeType.string

/-- Mirror of the Go constructor `AttributeTypeBool()`. -/
def AttributeTypeBool : BaseAttributeType := BaseAttributeType.bool

/-- Mirror of the Go constructor `AttributeTypeDurationMs()`. -/
def AttributeTypeDurationMs : BaseAttributeType := BaseAttributeType.durationMs

/-- Mirror of the Go constructor `AttributeTypeDurationSec()`. -/
def AttributeTypeDurationSec : BaseAttributeType := BaseAttributeType.durationSec

/-- The value `AttributeTypeCustomModifier(key, flag, base)` builds: the type
descriptor of one modifier. -/
structure CustomModifierType where
  key : String := ""
  customizableBySuffix : Bool := false
  base : BaseAttributeType := BaseAttributeType.string
deriving DecidableEq

/-- Mirror of the Go constructor `AttributeTypeCustomModifier`: it returns a
(non-nil) pointer, hence `some`. -/
def AttributeTypeCustomModifier (key : String) (customizableBySuffix : Bool)
    (base : BaseAttributeType) : Option CustomModifierType :=
  some { key := key, customizableBySuffix := customizableBySuffix, base := base }

/-- `pb.Attribute_Custom_Modifier`: one modifier descriptor. Field defaults
are the Go zero values; `Suffix` is simply absent for the boolean modifiers in
the registry. The Go field `Type` is `Typ` here. -/
structure Attribute_Custom_Modifier where
  Name : String := ""
  Description : String := ""
  Typ : Option CustomModifierType := none
  Prefix : String := ""
  Suffix : String := ""
deriving DecidableEq

/-- The payload of `AttributeTypeCustom(customizableBySuffix, base, mods...)`:
an attribute's type, carrying the permitted modifiers (each a pb pointer,
hence an `Option`). -/
structure Attribute_Custom where
  customizableBySuffix : Bool := false
  base : BaseAttributeType := BaseAttributeType.string
  modifiers : List (Option Attribute_Custom_Modifier) := []
deriving DecidableEq

/-- Mirror of the Go constructor `AttributeTypeCustom` (variadic modifiers
become an explicit list). It returns a non-nil pointer, hence `some`. -/
def AttributeTypeCustom (customizableBySuffix : Bool) (base : BaseAttributeType)
    (modifiers : List (Option Attribute_Custom_Modifier)) : Option Attribute_Custom :=
  some { customizableBySuffix := customizableBySuffix, base := base
         modifiers := modifiers }

/-- `pb.Attribute`: one catalog entry. The Go field `Type` is `Typ` here. -/
structure Attribute where
  Name : String := ""
  Key : String := ""
  Description : String := ""
  Typ : Option Attribute_Custom := none
deriving DecidableEq

/-- The struct `attributeCustomModifiers` from `extensions_datastar.go`: a
fixed-shape record of 32 pointers to modifier descriptors, in the source's
field declaration order. -/
structure attributeCustomModifiers where
  Capture : Option Attribute_Custom_Modifier := none
  Case : Option Attribute_Custom_Modifier := none
  DebounceMs : Option Attribute_Custom_Modifier := none
  DebounceMsLeading : Option Attribute_Custom_Modifier := none
  DebounceMsNoTrailing : Option Attribute_Custom_Modifier := none
  DebounceSec : Option Attribute_Custom_Modifier := none
  DebounceSecLeading : Option Attribute_Custom_Modifier := none
  DebounceSecNoTrailing : Option Attribute_Custom_Modifier := none
  DelayMs : Option Attribute_Custom_Modifier := none
  DelaySec : Option Attribute_Custom_Modifier := none
  DurationMs : Option Attribute_Custom_Modifier := none
  DurationMsLeading : Option Attribute_Custom_Modifier := none
  DurationSec : Option Attribute_Custom_Modifier := none
  DurationSecLeading : Option Attribute_Custom_Modifier := none
  Full : Option Attribute_Custom_Modifier := none
  IfMissing : Option Attribute_Custom_Modifier := none
  Half : Option Attribute_Custom_Modifier := none
  Once : Option Attribute_Custom_Modifier := none
  Outside : Option Attribute_Custom_Modifier := none
  Passive : Option Attribute_Custom_Modifier := none
  Prevent : Option Attribute_Custom_Modifier := none
  Self : Option Attribute_Custom_Modifier := none
  Stop : Option Attribute_Custom_Modifier := none
  Terse : Option Attribute_Custom_Modifier := none
  ThrottleMs : Option Attribute_Custom_Modifier := none
  ThrottleMsNoLeading : Option Attribute_Custom_Modifier := none
  ThrottleMsTrailing : Option Attribute_Custom_Modifier := none
  ThrotlleSec : Option Attribute_Custom_Modifier := none
  ThrotlleSecNoLeading : Option Attribute_Custom_Modifier := none
  ThrotlleSecTrailing : Option Attribute_Custom_Modifier := none
  ViewTransition : Option Attribute_Custom_Modifier := none
  Window : Option Attribute_Custom_Modifier := none
deriving DecidableEq

/-- The record's fields with their names, in declaration order: exactly what
the reflection loop of `validate` walks (`value.NumField()` / `typ.Field(i).Name`
enumerate struct fields in declaration order). -/
def attributeCustomModifiers.fields (a : attributeCustomModifiers) :
    List (String × Option Attribute_Custom_Modifier) :=
  [("Capture", a.Capture), ("Case", a.Case), ("DebounceMs", a.DebounceMs),
   ("DebounceMsLeading", a.DebounceMsLeading),
   ("DebounceMsNoTrailing", a.DebounceMsNoTrailing),
   ("DebounceSec", a.DebounceSec), ("DebounceSecLeading", a.DebounceSecLeading),
   ("DebounceSecNoTrailing", a.DebounceSecNoTrailing),
   ("DelayMs", a.DelayMs), ("DelaySec", a.DelaySec),
   ("DurationMs", a.DurationMs), ("DurationMsLeading", a.DurationMsLeading),
   ("DurationSec", a.DurationSec), ("DurationSecLeading", a.DurationSecLeading),
   ("Full", a.Full), ("IfMissing", a.IfMissing), ("Half", a.Half),
   ("Once", a.Once), ("Outside", a.Outside), ("Passive", a.Passive),
   ("Prevent", a.Prevent), ("Self", a.Self), ("Stop", a.Stop),
   ("Terse", a.Terse), ("ThrottleMs", a.ThrottleMs),
   ("ThrottleMsNoLeading", a.ThrottleMsNoLeading),
   ("ThrottleMsTrailing", a.ThrottleMsTrailing),
   ("ThrotlleSec", a.ThrotlleSec), ("ThrotlleSecNoLeading", a.ThrotlleSecNoLeading),
   ("ThrotlleSecTrailing", a.ThrotlleSecTrailing),
   ("ViewTransition", a.ViewTransition), ("Window", a.Window)]

/-- The body of `validate`'s reflection loop over the named fields: the first
nil field panics with a message naming it (`"Modifier " + fieldName + " is nil"`);
if none is nil the loop falls through. -/
def validateFields : List (String × Option Attribute_Custom_Modifier) → Except String Unit
  | [] => Except.ok ()
  | (fieldName, none) :: _ => Except.error ("Modifier " ++ fieldName ++ " is nil")
  | (_, some _) :: rest => validateFields rest

/-- `attributeCustomModifiers.validate`: checks every field of the record is
non-nil (via reflection in Go, via the explicit field enumeration
`attributeCustomModifiers.fields` here) and returns the record itself for
chaining; a nil field is a panic, modelled as `Except.error`. -/
def attributeCustomModifiers.validate (a : attributeCustomModifiers) :
    Except String attributeCustomModifiers :=
  match validateFields a.fields with
  | Except.ok _ => Except.ok a
  | Except.error msg => Except.error msg

/-- The registry literal `datastarModifiers` of `extensions_datastar.go`
(the Go variable is the literal with `.validate()` applied; validation
succeeds, see the theorems below, so the variable equals the literal). -/
def datastarModifiers : attributeCustomModifiers where
  Capture := some {
    Name := "Capture"
    Description := "Use capture event listener. Only works with built-in events."
    Typ := AttributeTypeCustomModifier "capture" false AttributeTypeBool
    Prefix := "capture" }
  Case := some {
    Name := "Case"
    Description := "Converts the casing of the signal name.\n\t- 'camel' – Camel case: 'mySignal' (default)\n\t- 'kebab' – Kebab case: 'my-signal'\n\t- 'snake' – Snake case: 'my_signal'\n\t- 'pascal' – Pascal case: 'MySignal'"
    Typ := AttributeTypeCustomModifier "case" false AttributeTypeString
    Prefix := "case." }
  DebounceMs := some {
    Name := "DebounceMs"
    Description := "Debounces the event handler"
    Typ := AttributeTypeCustomModifier "debounce" false AttributeTypeDurationMs
    Prefix := "debounce."
    Suffix := "ms" }
  DebounceMsLeading := some {
    Name := "DebounceMsLeading"
    Description := "Debounce the event listener in milliseconds with leading edge."
    Typ := AttributeTypeCustomModifier "debounce" false AttributeTypeDurationMs
    Prefix := "debounce."
    Suffix := "ms.leading" }
  DebounceMsNoTrailing := some {
    Name := "DebounceMsNoTrailing"
    Description := "Debounce the event listener in milliseconds without trailing edge."
    Typ := AttributeTypeCustomModifier "debounce" false AttributeTypeDurationMs
    Prefix := "debounce."
    Suffix := "ms.notrailing" }
  DebounceSec := some {
    Name := "DebounceSec"
    Description := "Debounces the event handler"
    Typ := AttributeTypeCustomModifier "debounce" false AttributeTypeDurationSec
    Prefix := "debounce."
    Suffix := "s" }
  DebounceSecLeading := some {
    Name := "DebounceSecLeading"
    Description := "Debounce the event listener in seconds with leading edge."
    Typ := AttributeTypeCustomModifier "debounce" false AttributeTypeDurationSec
    Prefix := "debounce."
    Suffix := "s.leading" }
  DebounceSecNoTrailing := some {
    Name := "DebounceSecNoTrailing"
    Description := "Debounce the event listener in seconds without trailing edge."
    Typ := AttributeTypeCustomModifier "debounce" false AttributeTypeDurationSec
    Prefix := "debounce."
    Suffix := "s.notrailing" }
  DelayMs := some {
    Name := "DelayMs"
    Description := "Delay the event listener in milliseconds."
    Typ := AttributeTypeCustomModifier "delay" false AttributeTypeDurationMs
    Prefix := "delay."
    Suffix := "ms" }
  DelaySec := some {
    Name := "DelaySec"
    Description := "Delay the event listener in seconds."
    Typ := AttributeTypeCustomModifier "delay" false AttributeTypeDurationSec
    Prefix := "delay."
    Suffix := "s" }
  DurationMs := some {
    Name := "DurationMs"
    Description := "Sets the interval duration in milliseconds."
    Typ := AttributeTypeCustomModifier "duration" false AttributeTypeDurationMs
    Prefix := "duration."
    Suffix := "ms" }
  DurationMsLeading := some {
    Name := "DurationMsLeading"
    Description := "Sets the interval duration in milliseconds. Execute the first interval immediately."
    Typ := AttributeTypeCustomModifier "duration" false AttributeTypeDurationMs
    Prefix := "duration."
    Suffix := "ms.leading" }
  DurationSec := some {
    Name := "DurationSec"
    Description := "Sets the interval duration in seconds."
    Typ := AttributeTypeCustomModifier "duration" false AttributeTypeDurationSec
    Prefix := "duration."
    Suffix := "s" }
  DurationSecLeading := some {
    Name := "DurationSecLeading"
    Description := "Sets the interval duration in seconds. Execute the first interval immediately."
    Typ := AttributeTypeCustomModifier "duration" false AttributeTypeDurationSec
    Prefix := "duration."
    Suffix := "s.leading" }
  Full := some {
    Name := "Full"
    Description := "Trigger when the full element is visible."
    Typ := AttributeTypeCustomModifier "full" false AttributeTypeBool
    Prefix := "full" }
  IfMissing := some {
    Name := "IfMissing"
    Description := "Only patches signals if their keys do not already exist. This is useful for setting defaults without overwriting existing values."
    Typ := AttributeTypeCustomModifier "ifmissing" false AttributeTypeBool
    Prefix := "ifmissing" }
  Half := some {
    Name := "Half"
    Description := "Trigger when half of the element is visible."
    Typ := AttributeTypeCustomModifier "half" false AttributeTypeBool
    Prefix := "half" }
  Once := some {
    Name := "Once"
    Description := "Only run the expression once. Only works with built-in events."
    Typ := AttributeTypeCustomModifier "once" false AttributeTypeBool
    Prefix := "once" }
  Outside := some {
    Name := "Outside"
    Description := "Triggers when the event is outside the element."
    Typ := AttributeTypeCustomModifier "outside" false AttributeTypeBool
    Prefix := "outside" }
  Passive := some {
    Name := "Passive"
    Description := "Do not call preventDefault on the event listener. Only works with built-in events."
    Typ := AttributeTypeCustomModifier "passive" false AttributeTypeBool
    Prefix := "passive" }
  Prevent := some {
    Name := "Prevent"
    Description := "Calls 'preventDefault' on the event listener."
    Typ := AttributeTypeCustomModifier "prevent" false AttributeTypeBool
    Prefix := "prevent" }
  Self := some {
    Name := "Self"
    Description := "Only ignore the element itself, not its descendants."
    Typ := AttributeTypeCustomModifier "self" false AttributeTypeBool
    Prefix := "self" }
  Stop := some {
    Name := "Stop"
    Description := "Calls 'stopPropagation' on the event listener."
    Typ := AttributeTypeCustomModifier "stop" false AttributeTypeBool
    Prefix := "stop" }
  Terse := some {
    Name := "Terse"
    Description := "Outputs a more compact JSON format without extra whitespace. Useful for displaying filtered data inline."
    Typ := AttributeTypeCustomModifier "terse" false AttributeTypeBool
    Prefix := "terse" }
  ThrottleMs := some {
    Name := "ThrottleMs"
    Description := "Throttles the event handler"
    Typ := AttributeTypeCustomModifier "throttleMs" false AttributeTypeDurationMs
    Prefix := "throttle."
    Suffix := "ms" }
  ThrottleMsNoLeading := some {
    Name := "ThrottleMsNoLeading"
    Description := "Throttle the event listener in milliseconds without leading edge."
    Typ := AttributeTypeCustomModifier "throttle" false AttributeTypeDurationMs
    Prefix := "throttle."
    Suffix := "ms.noleading" }
  ThrottleMsTrailing := some {
    Name := "ThrottleMsTrailing"
    Description := "Throttle the event listener in milliseconds with trailing edge."
    Typ := AttributeTypeCustomModifier "throttle" false AttributeTypeDurationMs
    Prefix := "throttle."
    Suffix := "ms.trailing" }
  ThrotlleSec := some {
    Name := "ThrottleSec"
    Description := "Throttles the event listener in seconds."
    Typ := AttributeTypeCustomModifier "throtlleSec" false AttributeTypeDurationSec
    Prefix := "throttle."
    Suffix := "s" }
  ThrotlleSecNoLeading := some {
    Name := "ThrottleSecNoLeading"
    Description := "Throttle the event listener in seconds without leading edge."
    Typ := AttributeTypeCustomModifier "throttle" false AttributeTypeDurationSec
    Prefix := "throttle."
    Suffix := "s.noleading" }
  ThrotlleSecTrailing := some {
    Name := "ThrottleSecTrailing"
    Description := "Throttle the event listener in seconds with trailing edge."
    Typ := AttributeTypeCustomModifier "throttle" false AttributeTypeDurationSec
    Prefix := "throttle."
    Suffix := "s.trailing" }
  ViewTransition := some {
    Name := "ViewTransition"
    Description := "Wraps the expression in 'document.startViewTransition()' when the View Transition API is available."
    Typ := AttributeTypeCustomModifier "viewtransition" false AttributeTypeBool
    Prefix := "viewtransition" }
  Window := some {
    Name := "Window"
    Description := "Attaches the event listener to the 'window' element."
    Typ := AttributeTypeCustomModifier "window" false AttributeTypeBool
    Prefix := "window" }

/-- The result of `url.Parse` on success: all `doc` uses of it go through
`u.String()`, kept here as the field `toStr`. -/
structure ParsedURL where
  toStr : String
deriving DecidableEq

/-- The ambient world `doc` interacts with: `parse` is `url.Parse` (`some` on
success, `none` when it returns an error), `get` is `http.Get` on the
re-serialised URL (`some statusCode` when it returns a non-nil response,
`none` for a transport error, in which case the returned `*http.Response` is
nil). -/
structure DocEnv where
  parse : String → Option ParsedURL
  get : String → Option Nat

/-- What a call of `doc` does: return a string, abort through one of its two
explicit `panic` calls (with the panic message), or abort through a Go
runtime fault raised before the explicit `panic` is reached. -/
inductive DocResult where
  | ok (s : String)
  | panicked (message : String)
  | fault (message : String)
deriving DecidableEq

/-- `doc(description, u_)` from `extensions_datastar.go`, line for line:

* `url.Parse` fails: Go first slices `description[0:30]`, which is a runtime
  fault (out-of-range slice) whenever the description is shorter than 30
  bytes; only otherwise is the explicit `panic(desc + ": invalid URL")`
  reached (`String.take 30` is the 30-byte Go slice; the catalog's
  descriptions are ASCII, where bytes and characters coincide);
* `http.Get` returns a transport error: the error branch is taken, but
  building its message evaluates `resp.StatusCode` with `resp == nil`, a nil
  pointer dereference, so the explicit `panic` is never reached;
* a response with a status other than 200 (`http.StatusOK`) reaches the
  explicit `panic(fmt.Errorf(...))`;
* otherwise the description is returned with the "See:" footer appended. -/
def doc (env : DocEnv) (description u_ : String) : DocResult :=
  match env.parse u_ with
  | none =>
    if 30 ≤ description.utf8ByteSize then
      DocResult.panicked (description.take 30 ++ "..." ++ ": invalid URL")
    else
      DocResult.fault "runtime error: slice bounds out of range"
  | some u =>
    match env.get u.toStr with
    | none =>
      DocResult.fault "runtime error: invalid memory address or nil pointer dereference"
    | some statusCode =>
      if statusCode ≠ 200 then
        DocResult.panicked
          ("Failed to fetch url " ++ u.toStr ++ " (statusCode=" ++ toString statusCode ++ ")")
      else
        DocResult.ok (description ++ "\n\nSee: " ++ u.toStr)

/-- The string `doc` returns when the URL parses and the fetch succeeds: the
description, a blank line, then "See: " and the URL (for the catalog's
already-normalised URLs `u.String()` is the input string). The catalog below
uses this value for the `Description` fields that Go fills by calling `doc`
at load time. -/
def docDescription (description u : String) : String :=
  description ++ "\n\nSee: " ++ u

/-- The catalog `DatastarExtensions` of `extensions_datastar.go`: the ordered
list of attribute definitions. `Description` fields that Go builds with
`doc(...)` carry `docDescription` (the value `doc` returns once its network
check succeeds; the check itself is the separate `doc` model above). -/
def DatastarExtensions : List Attribute := [
  { Name := "DatastarAttr", Key := "attr",
    Description := docDescription
      "Sets the value of any HTML attribute to an expression, and keeps it in sync."
      "https://data-star.dev/reference/attributes#data-attr",
    Typ := AttributeTypeCustom true AttributeTypeString [] },
  { Name := "DatastarBind", Key := "bind",
    Description := docDescription
      "Creates a signal (if one doesn’t already exist) and sets up two-way data binding between it and an element’s value."
      "https://data-star.dev/reference/attributes#data-bind",
    Typ := AttributeTypeCustom true AttributeTypeString [] },
  { Name := "DatastarClass", Key := "datastar-class",
    Description := "Adds or removes a class to or from an element based on an expression.",
    Typ := AttributeTypeCustom true AttributeTypeString
      [datastarModifiers.Case] },
  { Name := "DatastarComputed", Key := "computed",
    Description := docDescription
      "Creates a signal that is computed based on an expression. The computed signal is read-only, and its value is automatically updated when any signals in the expression are updated."
      "https://data-star.dev/reference/attributes#data-computed",
    Typ := AttributeTypeCustom true AttributeTypeString
      [datastarModifiers.Case] },
  { Name := "DatastarEffect", Key := "effect",
    Description := docDescription
      "Executes an expression on page load and whenever any signals in the expression change. This is useful for performing side effects, such as updating other signals, making requests to the backend, or manipulating the DOM."
      "https://data-star.dev/reference/attributes#data-effect",
    Typ := AttributeTypeCustom false AttributeTypeString [] },
  { Name := "DatastarIgnore", Key := "ignore",
    Description := docDescription
      "Datastar walks the entire DOM and applies plugins to each element it encounters. It's possible to tell Datastar to ignore an element and its descendants by placing a data-ignore attribute on it. This can be useful for preventing naming conflicts with third-party libraries, or when you are unable to escape user input."
      "https://data-star.dev/reference/attributes#data-ignore",
    Typ := AttributeTypeCustom false AttributeTypeBool
      [datastarModifiers.Self] },
  { Name := "DatastarIgnoreMorph", Key := "ignore-morph",
    Description := docDescription
      "Similar to the data-ignore attribute, the data-ignore-morph attribute tells the PatchElements watcher to skip processing an element and its children when morphing elements. This can be useful for preventing conflicts with third-party libraries that manipulate the DOM, or when you are unable to escape user input."
      "https://data-star.dev/reference/attributes#data-ignore-morph",
    Typ := AttributeTypeCustom false AttributeTypeBool [] },
  { Name := "DatastarIndicator", Key := "indicator",
    Description := docDescription
      "Creates a signal and sets its value to true while a fetch request is in flight, otherwise false. The signal can be used to show a loading indicator."
      "https://data-star.dev/reference/attributes#data-indicator",
    Typ := AttributeTypeCustom false AttributeTypeString
      [datastarModifiers.Case] },
  { Name := "DatastarInit", Key := "init",
    Description := docDescription
      "Runs an expression when the attribute is initialized. This can happen on page load, when an element is patched into the DOM, and any time the attribute is modified (via a backend action or otherwise)."
      "https://data-star.dev/reference/attributes#data-indicator",
    Typ := AttributeTypeCustom false AttributeTypeString
      [datastarModifiers.DelayMs, datastarModifiers.DelaySec,
       datastarModifiers.ViewTransition] },
  { Name := "DatastarJSONSignals", Key := "json-signals",
    Description := docDescription
      "Sets the text content of an element to a reactive JSON stringified version of signals. Useful when troubleshooting an issue."
      "https://data-star.dev/reference/attributes#data-json-signals",
    Typ := AttributeTypeCustom false AttributeTypeString
      [datastarModifiers.Terse] },
  { Name := "DatastarOn", Key := "on",
    Description := docDescription
      "Attaches an event listener to an element, executing an expression whenever the event is triggered."
      "https://data-star.dev/reference/attributes#data-on",
    Typ := AttributeTypeCustom true AttributeTypeString
      [datastarModifiers.Once, datastarModifiers.Passive, datastarModifiers.Capture,
       datastarModifiers.Case, datastarModifiers.DelayMs, datastarModifiers.DelaySec,
       datastarModifiers.DebounceMs, datastarModifiers.DebounceMsLeading,
       datastarModifiers.DebounceMsNoTrailing, datastarModifiers.DebounceSec,
       datastarModifiers.DebounceSecLeading, datastarModifiers.DebounceSecNoTrailing,
       datastarModifiers.ThrottleMs, datastarModifiers.ThrottleMsNoLeading,
       datastarModifiers.ThrottleMsTrailing, datastarModifiers.ThrotlleSec,
       datastarModifiers.ThrotlleSecNoLeading, datastarModifiers.ThrotlleSecTrailing,
       datastarModifiers.ViewTransition, datastarModifiers.Window,
       datastarModifiers.Prevent, datastarModifiers.Outside, datastarModifiers.Stop] },
  { Name := "DatastarOnIntersect", Key := "on-intersect",
    Description := "Runs an expression when the element intersects with the viewport.",
    Typ := AttributeTypeCustom false AttributeTypeString
      [datastarModifiers.Once, datastarModifiers.Half, datastarModifiers.Full,
       datastarModifiers.DelayMs, datastarModifiers.DelaySec,
       datastarModifiers.DebounceMs, datastarModifiers.DebounceMsLeading,
       datastarModifiers.DebounceMsNoTrailing, datastarModifiers.DebounceSec,
       datastarModifiers.DebounceSecLeading, datastarModifiers.DebounceSecNoTrailing,
       datastarModifiers.ThrottleMs, datastarModifiers.ThrottleMsNoLeading,
       datastarModifiers.ThrottleMsTrailing, datastarModifiers.ThrotlleSec,
       datastarModifiers.ThrotlleSecNoLeading, datastarModifiers.ThrotlleSecTrailing,
       datastarModifiers.ViewTransition] },
  { Name := "DatastarOnInterval", Key := "on-interval",
    Description := docDescription
      "Runs an expression at a regular interval. The interval duration defaults to one second and can be modified using the '__duration' modifier."
      "https://data-star.dev/reference/attributes#data-on-interval",
    Typ := AttributeTypeCustom false AttributeTypeString
      [datastarModifiers.DurationMs, datastarModifiers.DurationMsLeading,
       datastarModifiers.DurationSec, datastarModifiers.DurationSecLeading,
       datastarModifiers.ViewTransition] },
  { Name := "DatastarOnSignalPatch", Key := "on-signal-patch",
    Description := docDescription
      "Runs an expression whenever any signals are patched. This is useful for tracking changes, updating computed values, or triggering side effects when data updates."
      "https://data-star.dev/reference/attributes#data-on-signal-patch",
    Typ := AttributeTypeCustom false AttributeTypeString
      [datastarModifiers.DelayMs, datastarModifiers.DelaySec,
       datastarModifiers.DebounceMs, datastarModifiers.DebounceMsLeading,
       datastarModifiers.DebounceMsNoTrailing, datastarModifiers.DebounceSec,
       datastarModifiers.DebounceSecLeading, datastarModifiers.DebounceSecNoTrailing,
       datastarModifiers.ThrottleMs, datastarModifiers.ThrottleMsNoLeading,
       datastarModifiers.ThrottleMsTrailing, datastarModifiers.ThrotlleSec,
       datastarModifiers.ThrotlleSecNoLeading, datastarModifiers.ThrotlleSecTrailing] },
  { Name := "DatastarOnSignalPatchFilter", Key := "on-signal-patch-filter",
    Description := docDescription
      "Filters which signals to watch when using the data-on-signal-patch attribute.\n\nThe data-on-signal-patch-filter attribute accepts an object with include and/or exclude properties that are regular expressions."
      "https://data-star.dev/reference/attributes#data-on-signal-patch-filter",
    Typ := AttributeTypeCustom false AttributeTypeString [] },
  { Name := "DatastarPreserveAttr", Key := "preserve-attr",
    Description := docDescription
      "Preserves the value of an attribute when morphing DOM elements."
      "https://data-star.dev/reference/attributes#data-preserve-attr",
    Typ := AttributeTypeCustom false AttributeTypeString [] },
  { Name := "DatastarRef", Key := "ref",
    Description := docDescription
      "Creates a new signal that is a reference to the element on which the data attribute is placed."
      "https://data-star.dev/reference/attributes#data-ref",
    Typ := AttributeTypeCustom false AttributeTypeString
      [datastarModifiers.Case] },
  { Name := "DatastarShow", Key := "show",
    Description := docDescription
      "Shows or hides an element based on whether an expression evaluates to 'true' or 'false'. For anything with custom requirements, use 'data-class' instead."
      "https://data-star.dev/reference/attributes#data-show",
    Typ := AttributeTypeCustom false AttributeTypeString [] },
  { Name := "DatastarSignals", Key := "signals",
    Description := docDescription
      "Patches (adds, updates or removes) one or more signals into the existing signals. Values defined later in the DOM tree override those defined earlier."
      "https://data-star.dev/reference/attributes#data-signals",
    Typ := AttributeTypeCustom true AttributeTypeString
      [datastarModifiers.Case, datastarModifiers.IfMissing] },
  { Name := "DatastarStyle", Key := "datastar-style",
    Description := docDescription
      "Sets the value of inline CSS styles on an element based on an expression, and keeps them in sync."
      "https://data-star.dev/reference/attributes#data-style",
    Typ := AttributeTypeCustom true AttributeTypeString
      [datastarModifiers.Case] },
  { Name := "DatastarText", Key := "text",
    Description := docDescription
      "Binds the text content of an element to an expression."
      "https://data-star.dev/reference/attributes#data-text",
    Typ := AttributeTypeCustom false AttributeTypeString [] }]

/-- The modifiers an attribute definition references (the variadic tail of its
`AttributeTypeCustom(...)` call; empty for a nil type). -/
def Attribute.modifierRefs (e : Attribute) : List (Option Attribute_Custom_Modifier) :=
  match e.Typ with
  | none => []
  | some t => t.modifiers

/-- Modelled from the spec: the code generator and the generated `elements`
builder package are not among the repository's two source files. The spec's
generated-string contract is
`data-<key>[:<subkey>][__<modifier-prefix><value><modifier-suffix>]="<expression>"`;
this is one rendered modifier token, `__<prefix><value><suffix>`. -/
def renderModifierToken (m : Attribute_Custom_Modifier) (value : String) : String :=
  "__" ++ m.Prefix ++ value ++ m.Suffix

/-- Modelled from the spec: the value a duration-in-milliseconds modifier
renders (the builder receives a duration and emits its whole number of
milliseconds, e.g. `500*time.Millisecond` renders "500"). -/
def renderDurationMs (ms : Nat) : String :=
  toString ms

/-- Modelled from the spec: the name part of one generated data attribute,
`data-<key>[:<subkey>]` followed by the rendered modifier tokens in the order
the modifiers were given (the sub-key part is absent when the sub-key is
empty, as the test suite's `DATASTAR_ATTR("", ...)` cases show). -/
def dataAttrName (key subkey : String) (mods : List String) : String :=
  "data-" ++ key ++ (if subkey = "" then "" else ":" ++ subkey) ++ String.join mods

/-- Modelled from the spec: one full generated attribute string,
`<name>="<expression>"`. -/
def renderDataAttr (key subkey expr : String) (mods : List String) : String :=
  dataAttrName key subkey mods ++ "=\"" ++ expr ++ "\""

/-- Modelled from the spec: a generated builder element — a tag plus its
attributes in order, an attribute being a name with an optional value
(boolean attributes such as `data-ignore` render with no value). -/
structure Element where
  tag : String
  attrs : List (String × Option String)

/-- Modelled from the spec: a builder call sets an attribute; a name already
present is overwritten, a new one is appended. -/
def setAttr (e : Element) (name : String) (v : Option String) : Element :=
  { e with attrs := e.attrs.filter (fun p => !(p.1 == name)) ++ [(name, v)] }

/-- Modelled from the spec: the `...Remove` builder form deletes the
attribute from the element. -/
def removeAttr (e : Element) (name : String) : Element :=
  { e with attrs := e.attrs.filter (fun p => !(p.1 == name)) }

/-- Modelled from the spec: the `...Set(b)` builder form — `Set(false)`
produces no attribute in the output. -/
def setBoolAttr (e : Element) (name : String) (b : Bool) : Element :=
  if b then setAttr e name none else removeAttr e name

/-- Modelled from the spec: how one attribute is written into the output
buffer (a space, the name, and `="<value>"` when the attribute has a value). -/
def renderAttrPiece (p : String × Option String) : String :=
  match p.2 with
  | none => " " ++ p.1
  | some v => " " ++ p.1 ++ "=\"" ++ v ++ "\""

/-- Modelled from the spec: the attribute-writing loop, appending each
attribute to the buffer in order (the test harness renders into a pooled,
reused byte buffer). -/
def writeAttrs (buf : String) : List (String × Option String) → String
  | [] => buf
  | p :: rest => writeAttrs (buf ++ renderAttrPiece p) rest

/-- Modelled from the spec: `Render` appends `<tag`, the attributes, then
`></tag>` to the buffer it is handed. -/
def renderTo (e : Element) (buf : String) : String :=
  writeAttrs (buf ++ "<" ++ e.tag) e.attrs ++ "></" ++ e.tag ++ ">"

/-- Modelled from the spec: the rendered element as a string (rendering into
an empty buffer). -/
def render (e : Element) : String :=
  renderTo e ""

/-- The `<div>` element the test suite's `DIV()` builder starts from. -/
def divE : Element :=
  { tag := "div", attrs := [] }

/-- The wire attribute name of each catalog entry as the test suite's expected
output strings assert it (`tests/datastar_test.go`): e.g. `TestDatastarClass`
expects `data-class:hidden="$foo"`, so the wire name of `DatastarClass` is
"class"; `TestDatastarStyle` expects `data-style:background-color="..."`, so
the wire name of `DatastarStyle` is "style". -/
def testWireName : String → Option String
  | "DatastarAttr" => some "attr"
  | "DatastarBind" => some "bind"
  | "DatastarClass" => some "class"
  | "DatastarComputed" => some "computed"
  | "DatastarEffect" => some "effect"
  | "DatastarIgnore" => some "ignore"
  | "DatastarIgnoreMorph" => some "ignore-morph"
  | "DatastarIndicator" => some "indicator"
  | "DatastarInit" => some "init"
  | "DatastarJSONSignals" => some "json-signals"
  | "DatastarOn" => some "on"
  | "DatastarOnIntersect" => some "on-intersect"
  | "DatastarOnInterval" => some "on-interval"
  | "DatastarOnSignalPatch" => some "on-signal-patch"
  | "DatastarOnSignalPatchFilter" => some "on-signal-patch-filter"
  | "DatastarPreserveAttr" => some "preserve-attr"
  | "DatastarRef" => some "ref"
  | "DatastarShow" => some "show"
  | "DatastarSignals" => some "signals"
  | "DatastarStyle" => some "style"
  | "DatastarText" => some "text"
  | _ => none

/-! ### String helper lemmas -/

theorem str_append_assoc (a b c : String) : a ++ b ++ c = a ++ (b ++ c) := by
  rcases a with ⟨la⟩
  rcases b with ⟨lb⟩
  rcases c with ⟨lc⟩
  show String.mk (la ++ lb ++ lc) = String.mk (la ++ (lb ++ lc))
  exact congrArg String.mk (List.append_assoc la lb lc)

theorem str_append_empty (a : String) : a ++ "" = a := by
  rcases a with ⟨la⟩
  show String.mk (la ++ []) = String.mk la
  exact congrArg String.mk (List.append_nil la)

theorem str_empty_append (a : String) : "" ++ a = a := by
  rcases a with ⟨la⟩
  rfl

theorem join_nil : String.join [] = "" := rfl

theorem join_cons (s : String) (rest : List String) :
    String.join (s :: rest) = s ++ String.join rest := by
  rcases rest with _ | ⟨t, ts⟩
  · simp [String.join, str_append_empty, str_empty_append]
  · show List.foldl (· ++ ·) ("" ++ s) (t :: ts) = s ++ String.join (t :: ts)
    rw [str_empty_append]
    show List.foldl (· ++ ·) (s ++ t) ts = s ++ List.foldl (· ++ ·) ("" ++ t) ts
    rw [str_empty_append]
    induction ts generalizing t with
    | nil => rfl
    | cons u us ih =>
      show List.foldl (· ++ ·) (s ++ t ++ u) us = s ++ List.foldl (· ++ ·) (t ++ u) us
      rw [str_append_assoc]
      exact ih (t ++ u)

/-! ### The validator's loop -/

theorem validateFields_ok_iff (l : List (String × Option Attribute_Custom_Modifier)) :
    validateFields l = Except.ok () ↔ ∀ p ∈ l, (p.2).isSome := by
  induction l with
  | nil => simp [validateFields]
  | cons p rest ih =>
    obtain ⟨f, v⟩ := p
    cases v with
    | none => simp [validateFields]
    | some m => simp [validateFields, ih]

theorem validateFields_error (l : List (String × Option Attribute_Custom_Modifier))
    (msg : String) (h : validateFields l = Except.error msg) :
    ∃ p ∈ l, p.2 = none ∧ msg = "Modifier " ++ p.1 ++ " is nil" := by
  induction l with
  | nil => simp [validateFields] at h
  | cons p rest ih =>
    obtain ⟨f, v⟩ := p
    cases v with
    | none =>
      refine ⟨(f, none), by simp, rfl, ?_⟩
      simpa [validateFields] using h.symm
    | some m =>
      obtain ⟨q, hq, h1, h2⟩ := ih (by simpa [validateFields] using h)
      exact ⟨q, by simp [hq], h1, h2⟩

/-! ### The claims -/

/-- C1: `attributeCustomModifiers.validate` returns the very record it was
given (for chaining) exactly when every one of its pointer fields is non-nil;
it panics if and only if some field is nil, and the panic message names an
offending (nil) field: it is `"Modifier " ++ fieldName ++ " is nil"` for a
field that is indeed nil. -/
theorem validate_returns_record_iff_all_fields_set (a : attributeCustomModifiers) :
    (a.validate = Except.ok a ↔ ∀ p ∈ a.fields, (p.2).isSome) ∧
    ((¬ ∀ p ∈ a.fields, (p.2).isSome) → ∃ msg, a.validate = Except.error msg) ∧
    (∀ msg, a.validate = Except.error msg →
      ∃ p ∈ a.fields, p.2 = none ∧ msg = "Modifier " ++ p.1 ++ " is nil") := by
  unfold attributeCustomModifiers.validate
  cases hv : validateFields a.fields with
  | ok u =>
    cases u
    refine ⟨⟨fun _ => (validateFields_ok_iff _).mp hv, fun _ => rfl⟩, ?_, ?_⟩
    · exact fun hn => absurd ((validateFields_ok_iff _).mp hv) hn
    · intro msg h
      exact absurd h (by simp)
  | error m =>
    refine ⟨⟨fun h => absurd h (by simp), ?_⟩, ?_, ?_⟩
    · intro hall
      have : validateFields a.fields = Except.ok () := (validateFields_ok_iff _).mpr hall
      rw [this] at hv
      cases hv
    · exact fun _ => ⟨m, rfl⟩
    · intro msg h
      have hm : msg = m := by
        simpa using h.symm
      subst hm
      exact validateFields_error _ _ hv

/-- C2: for every world, description and URL, `doc` returns the description
with the "see also" footer appended (the description, a blank line, then
"See: " and the URL) exactly when the URL parses and the fetch returns
status 200; and it aborts catalog construction by panicking (through an
explicit `panic` or a Go runtime panic, `DocResult.panicked` or
`DocResult.fault`) if and only if the URL is malformed, the fetch fails, or
the fetch returns a non-200 status. -/
theorem doc_ok_iff_url_parses_and_fetch_succeeds (env : DocEnv) (d u_ : String) :
    (∀ r, doc env d u_ = DocResult.ok r ↔
      ∃ pu, env.parse u_ = some pu ∧ env.get pu.toStr = some 200 ∧
        r = d ++ "\n\nSee: " ++ pu.toStr) ∧
    ((∃ m, doc env d u_ = DocResult.panicked m ∨ doc env d u_ = DocResult.fault m) ↔
      (env.parse u_ = none ∨
        ∃ pu, env.parse u_ = some pu ∧ env.get pu.toStr ≠ some 200)) := by
  cases hp : env.parse u_ with
  | none =>
    by_cases hb : 30 ≤ d.utf8ByteSize <;> simp [doc, hp, hb]
  | some pu =>
    cases hg : env.get pu.toStr with
    | none => simp [doc, hp, hg]
    | some statusCode =>
      by_cases h200 : statusCode = 200
      · subst h200
        simp [doc, hp, hg, eq_comm]
      · simp [doc, hp, hg, h200]

/-- C3 counterexample: it is NOT the case that for every catalog entry the
generated attribute string built from the entry's `Key` matches the one built
from the wire name the tests expect. The `DatastarClass` entry (index 2)
has `Key = "datastar-class"`, while `TestDatastarClass` expects the wire name
"class": `data-datastar-class:hidden="$foo"` differs from
`data-class:hidden="$foo"`. -/
theorem key_is_wire_name_counterexample :
    ¬ (∀ e ∈ DatastarExtensions, ∀ w, testWireName e.Name = some w →
        ∀ sk ex, renderDataAttr e.Key sk ex [] = renderDataAttr w sk ex []) := by
  intro h
  have := h (DatastarExtensions.get ⟨2, by decide⟩) (List.get_mem _ _ _)
    "class" (by decide) "hidden" "$foo"
  exact absurd this (by decide)

/-- C3 (amended): for every catalog entry the generated string is
`data-<key>:<subkey>="<expr>"` with `<key>` the wire attribute name, and the
entry's `Key` field is that wire name — EXCEPT for the entries named
`DatastarClass` and `DatastarStyle`, whose `Key` fields carry a spurious
`datastar-` prefix ("datastar-class", "datastar-style") in front of the wire
names "class" and "style" that the tests expect. -/
theorem key_is_wire_name_except_class_style :
    ∀ e ∈ DatastarExtensions, ∀ w, testWireName e.Name = some w →
      ((e.Name = "DatastarClass" ∨ e.Name = "DatastarStyle") →
        e.Key = "datastar-" ++ w) ∧
      ((e.Name ≠ "DatastarClass" ∧ e.Name ≠ "DatastarStyle") → e.Key = w) ∧
      (∀ sk ex, renderDataAttr w sk ex [] =
        "data-" ++ w ++ (if sk = "" then "" else ":" ++ sk) ++ "=\"" ++ ex ++ "\"") := by
  have H : ∀ e ∈ DatastarExtensions, (testWireName e.Name).isNone ∨
      (((e.Name = "DatastarClass" ∨ e.Name = "DatastarStyle") →
          e.Key = "datastar-" ++ (testWireName e.Name).getD "") ∧
       ((e.Name ≠ "DatastarClass" ∧ e.Name ≠ "DatastarStyle") →
          e.Key = (testWireName e.Name).getD "")) := by decide
  intro e he w hw
  rcases H e he with hnone | hgood
  · rw [hw] at hnone
    cases hnone
  · rw [hw] at hgood
    refine ⟨hgood.1, hgood.2, ?_⟩
    intro sk ex
    simp [renderDataAttr, dataAttrName, join_nil, str_append_empty]

/-- C3 witness: the amended theorem applied to the `DatastarClass` entry
(catalog index 2) and its tested wire name "class". -/
theorem key_is_wire_name_except_class_style_witness :
    (DatastarExtensions.get ⟨2, by decide⟩).Key = "datastar-" ++ "class" :=
  (key_is_wire_name_except_class_style (DatastarExtensions.get ⟨2, by decide⟩)
    (List.get_mem _ _ _) "class" (by decide)).1 (by decide)

/-- C4 counterexample: it is NOT the case that every field of every modifier
in the registry (Name, Description, Type, Prefix, Suffix) is
non-nil/non-empty: the very first field, `Capture`, has an empty `Suffix`
(as do all the boolean modifiers). -/
theorem every_modifier_field_nonempty_counterexample :
    ¬ (∀ p ∈ datastarModifiers.fields, (p.2).isSome ∧
        ((p.2).getD {}).Name ≠ "" ∧ ((p.2).getD {}).Description ≠ "" ∧
        ((p.2).getD {}).Typ.isSome ∧ ((p.2).getD {}).Prefix ≠ "" ∧
        ((p.2).getD {}).Suffix ≠ "") := by
  decide

/-- C4 (amended): the load-time check `validate` passes on the registry (so
every modifier pointer is non-nil — a nil one would be a fatal load-time
panic, per the C1 theorem), and every modifier has a non-empty `Name`,
`Description` and `Prefix` and a set `Type`; `Suffix` however may be empty
(it is unset for every boolean modifier, e.g. `Capture`), and the check
inspects only pointer nilness, not the fields inside a modifier. -/
theorem modifier_registry_complete :
    datastarModifiers.validate = Except.ok datastarModifiers ∧
    ∀ p ∈ datastarModifiers.fields, (p.2).isSome ∧
      ((p.2).getD {}).Name ≠ "" ∧ ((p.2).getD {}).Description ≠ "" ∧
      ((p.2).getD {}).Typ.isSome ∧ ((p.2).getD {}).Prefix ≠ "" :=
  ⟨rfl, by decide⟩

/-- C5: every modifier referenced by an attribute definition of
`DatastarExtensions` is non-nil, has a non-empty `Prefix`, and has its
`Type` set. -/
theorem referenced_modifiers_have_prefix_and_type :
    ∀ e ∈ DatastarExtensions, ∀ mo ∈ e.modifierRefs,
      mo.isSome ∧ (mo.getD {}).Prefix ≠ "" ∧ (mo.getD {}).Typ.isSome := by
  decide

/-- C5 witness: the theorem applied to the `Case` modifier referenced by the
`DatastarClass` entry (catalog index 2). -/
theorem referenced_modifiers_have_prefix_and_type_witness :
    (datastarModifiers.Case).isSome ∧
    ((datastarModifiers.Case).getD {}).Prefix ≠ "" ∧
    ((datastarModifiers.Case).getD {}).Typ.isSome :=
  referenced_modifiers_have_prefix_and_type (DatastarExtensions.get ⟨2, by decide⟩)
    (List.get_mem _ _ _) datastarModifiers.Case (by decide)

/-- C6: the registry's `DebounceMsLeading` modifier has `Prefix "debounce."`
and `Suffix "ms.leading"`, and applied to a value of 500 milliseconds its
rendered token is the prefix, then the number 500, then "ms.leading" —
`__debounce.500ms.leading`, exactly the token `TestDatastarOn` expects in
`data-on:click__debounce.500ms.leading="$foo = ''"`. -/
theorem debounce_ms_leading_renders_500ms_leading :
    ∀ m, datastarModifiers.DebounceMsLeading = some m →
      m.Prefix = "debounce." ∧ m.Suffix = "ms.leading" ∧
      renderModifierToken m (renderDurationMs 500) =
        "__" ++ m.Prefix ++ "500" ++ m.Suffix ∧
      renderModifierToken m (renderDurationMs 500) = "__debounce.500ms.leading" := by
  intro m hm
  injection hm with hm
  subst hm
  exact ⟨rfl, rfl, rfl, rfl⟩

/-- C6 witness: the theorem applied to the registry's actual
`DebounceMsLeading` modifier. -/
theorem debounce_ms_leading_renders_500ms_leading_witness :
    ∃ m, datastarModifiers.DebounceMsLeading = some m ∧
      renderModifierToken m (renderDurationMs 500) = "__debounce.500ms.leading" :=
  ⟨_, rfl, (debounce_ms_leading_renders_500ms_leading _ rfl).2.2.2⟩

/-- C7: with the registry's `Case` modifier at value "kebab" as single
modifier, the generated string is `data-<key>__case.kebab="<expr>"` for every
key and expression; with two modifiers the two tokens appear in the given
order, each introduced by `__`; and on the concrete two-modifier test case
(`TestDatastarOnIntersect`, modifiers `Once` then `Full`) the generated
attribute is exactly `data-on-intersect__once__full="$fullyIntersected = true"`. -/
theorem modifier_tokens_render_in_given_order :
    ∀ c, datastarModifiers.Case = some c →
      (∀ key expr, renderDataAttr key "" expr [renderModifierToken c "kebab"] =
        "data-" ++ key ++ "__case.kebab=\"" ++ expr ++ "\"") ∧
      (∀ key subkey expr m₁ v₁ m₂ v₂,
        renderDataAttr key subkey expr
            [renderModifierToken m₁ v₁, renderModifierToken m₂ v₂] =
          "data-" ++ key ++ (if subkey = "" then "" else ":" ++ subkey) ++
            ("__" ++ m₁.Prefix ++ v₁ ++ m₁.Suffix) ++
            ("__" ++ m₂.Prefix ++ v₂ ++ m₂.Suffix) ++ "=\"" ++ expr ++ "\"") ∧
      ((datastarModifiers.Once.bind fun o => datastarModifiers.Full.map fun f =>
          renderDataAttr "on-intersect" "" "$fullyIntersected = true"
            [renderModifierToken o "", renderModifierToken f ""]) =
        some "data-on-intersect__once__full=\"$fullyIntersected = true\"") := by
  intro c hc
  injection hc with hc
  subst hc
  refine ⟨?_, ?_, rfl⟩
  · intro key expr
    simp only [renderDataAttr, dataAttrName, renderModifierToken, join_cons, join_nil,
      str_append_empty, str_append_assoc, if_pos rfl]
    rfl
  · intro key subkey expr m₁ v₁ m₂ v₂
    simp only [renderDataAttr, dataAttrName, renderModifierToken, join_cons, join_nil,
      str_append_empty, str_append_assoc]

/-- C7 witness: the theorem's single-modifier part at key "ref" and
expression "fooBar". -/
theorem modifier_tokens_render_in_given_order_witness :
    ∃ c, datastarModifiers.Case = some c ∧
      renderDataAttr "ref" "" "fooBar" [renderModifierToken c "kebab"] =
        "data-" ++ "ref" ++ "__case.kebab=\"" ++ "fooBar" ++ "\"" :=
  ⟨_, rfl, (modifier_tokens_render_in_given_order _ rfl).1 "ref" "fooBar"⟩

/-- Removing an attribute right after setting it restores the element, as
long as the element did not already carry the attribute. -/
theorem removeAttr_setAttr (e : Element) (name : String) (v : Option String)
    (h : ∀ p ∈ e.attrs, p.1 ≠ name) :
    removeAttr (setAttr e name v) name = e := by
  have hf : e.attrs.filter (fun p => !(p.1 == name)) = e.attrs :=
    List.filter_eq_self.mpr (fun a ha => by simpa using h a ha)
  simp [removeAttr, setAttr, List.filter_append, hf]

/-- C8: for every element, attribute name and value, if the attribute was not
already present then `...Remove` after setting it — and likewise `...Set(false)`
after setting it — renders exactly as if the attribute had never been set; on
the concrete test cases, `DATASTAR_ATTR("title", "$foo")` renders
`<div data-attr:title="$foo"></div>`, removing it again renders `<div></div>`
(`TestDatastarAttr`), and `DATASTAR_IGNORE_MORPHSet(false)` renders
`<div></div>` (`TestDatastarIgnoreMorph`). -/
theorem remove_after_set_restores_render :
    ∀ e name v, (∀ p ∈ e.attrs, p.1 ≠ name) →
      (render (removeAttr (setAttr e name v) name) = render e ∧
       render (setBoolAttr (setAttr e name v) name false) = render e) ∧
      render (setAttr divE (dataAttrName "attr" "title" []) (some "$foo")) =
        "<div data-attr:title=\"$foo\"></div>" ∧
      render (removeAttr (setAttr divE (dataAttrName "attr" "title" []) (some "$foo"))
        (dataAttrName "attr" "title" [])) = "<div></div>" ∧
      render (setBoolAttr divE (dataAttrName "ignore-morph" "" []) false) =
        "<div></div>" := by
  intro e name v h
  have hr := removeAttr_setAttr e name v h
  refine ⟨⟨by rw [hr], ?_⟩, rfl, rfl, rfl⟩
  show render (removeAttr (setAttr e name v) name) = render e
  rw [hr]

/-- C8 witness: the theorem applied to the `DATASTAR_ATTR` test case on a
fresh `<div>`. -/
theorem remove_after_set_restores_render_witness :
    render (removeAttr (setAttr divE (dataAttrName "attr" "title" []) (some "$foo"))
      (dataAttrName "attr" "title" [])) = render divE :=
  ((remove_after_set_restores_render divE (dataAttrName "attr" "title" [])
    (some "$foo") (by simp [divE])).1).1

/-- The attribute-writing loop only appends: what was in the buffer stays a
prefix of the result. -/
theorem writeAttrs_append (as : List (String × Option String)) :
    ∀ b c : String, writeAttrs (b ++ c) as = b ++ writeAttrs c as := by
  induction as with
  | nil => intro b c; rfl
  | cons p rest ih =>
    intro b c
    show writeAttrs (b ++ c ++ renderAttrPiece p) rest =
      b ++ writeAttrs (c ++ renderAttrPiece p) rest
    rw [str_append_assoc]
    exact ih b (c ++ renderAttrPiece p)

/-- Rendering appends to the buffer: the written bytes do not depend on what
the (pooled, reused) buffer already holds. -/
theorem renderTo_append (e : Element) (b : String) : renderTo e b = b ++ render e := by
  unfold render renderTo
  rw [show ("" : String) ++ "<" ++ e.tag = "<" ++ e.tag from by rw [str_empty_append]]
  rw [str_append_assoc b "<" e.tag, writeAttrs_append e.attrs b ("<" ++ e.tag)]
  simp only [str_append_assoc]

/-- C9: rendering is deterministic — for every constructed element the bytes
written are a function of the element alone: rendering into any two (pooled)
buffers appends one and the same output string, namely `render e`, so
rendering the same builder call twice yields byte-identical output. -/
theorem render_is_deterministic (e : Element) (b₁ b₂ : String) :
    ∃ out, renderTo e b₁ = b₁ ++ out ∧ renderTo e b₂ = b₂ ++ out ∧ out = render e :=
  ⟨render e, renderTo_append e b₁, renderTo_append e b₂, rfl⟩

/-- A world in which `url.Parse` fails (as it does for the URL ":", missing
protocol scheme). -/
def parseFailEnv : DocEnv :=
  { parse := fun _ => none, get := fun _ => none }

/-- A world in which `url.Parse` succeeds but `http.Get` returns a transport
error, so the returned `*http.Response` is nil. -/
def transportFailEnv : DocEnv :=
  { parse := fun s => some { toStr := s }, get := fun _ => none }

/-- C10: `doc` does NOT always reach one of its two explicit `panic` calls.
With a description shorter than 30 bytes and a URL that does not parse, Go
slices `description[0:30]` out of range (a runtime fault) before the explicit
`panic(desc + ": invalid URL")`; with a transport error from `http.Get`, Go
dereferences the nil response in `resp.StatusCode` while building the panic
message (a runtime fault) before the explicit `panic` is reached. Neither
outcome is one of the two explicit panics. -/
theorem doc_faults_before_explicit_panic :
    (doc parseFailEnv "x" ":" =
      DocResult.fault "runtime error: slice bounds out of range" ∧
     ∀ m, doc parseFailEnv "x" ":" ≠ DocResult.panicked m) ∧
    (doc transportFailEnv "x" "https://data-star.dev/reference/attributes#data-attr" =
      DocResult.fault "runtime error: invalid memory address or nil pointer dereference" ∧
     ∀ m, doc transportFailEnv "x" "https://data-star.dev/reference/attributes#data-attr" ≠
       DocResult.panicked m) :=
  ⟨⟨rfl, fun _ h => DocResult.noConfusion ((rfl : doc parseFailEnv "x" ":" =
      DocResult.fault "runtime error: slice bounds out of range").symm.trans h)⟩,
   ⟨rfl, fun _ h => DocResult.noConfusion
      ((rfl : doc transportFailEnv "x" "https://data-star.dev/reference/attributes#data-attr" =
        DocResult.fault "runtime error: invalid memory address or nil pointer dereference").symm.trans h)⟩⟩

end Gostar
